import Mathlib

set_option maxRecDepth 10000

/-!
Shallow embedding of the message-processing core of `src/bot.py`
(a Flask WhatsApp bot): the menu state machine (`MenuSystem`),
the authorization gate (`GoogleSheetsService.is_user_authorized`,
`check_authorization`), the file-list rendering and the webhook
delivery endpoint (`webhook_receive`).

Modelling conventions:
- Python strings are Lean `String`s; the digit-only normalization used by the
  authorization gate is modelled on `List Char` (join of a filtered character
  sequence, compared with `==` and `endswith`, which correspond to list
  equality and `List.isSuffixOf`).
- `str.strip` and `str.lower` are modelled character-wise (`pyStrip`,
  `pyLower`).  Python performs Unicode-aware case folding and also strips
  Unicode spaces; the tokens the bot compares against are ASCII, so the
  ASCII-level model coincides with the source on every input the claims
  quantify over.
- The webhook JSON payload is an inductive `JValue`; `dict.get` with a
  default, indexing `[0]` and Python truthiness are modelled by `pyGet`,
  `pyIndex`, `pyFalsy`, with raised exceptions as `Except PyErr`.  The
  generic `except Exception` handler of `webhook_receive` maps any raised
  error to the response `(Internal Server Error, 500)`.
- Sender id and message id are modelled as strings, following the type
  annotations in the source (`send_message(to: str, ...)`,
  `mark_as_read(message_id: str)`, `user_sessions: Dict[str, str]`).
- The external collaborators (Sheets lookup, Drive lookup, WhatsApp
  transport) are modelled by their results: a lookup is an
  `Except`-value recording either the rows/files returned or the
  exception raised; outbound sends and read receipts are recorded as
  effects, mirroring that their failures are swallowed by the source.
-/

/-- A JSON-like value, the shape of the webhook payload. -/
inductive JValue where
  | null : JValue
  | str : String → JValue
  | num : Int → JValue
  | bool : Bool → JValue
  | arr : List JValue → JValue
  | obj : List (String × JValue) → JValue

/-- The Python exceptions that the delivery endpoint can raise while
extracting fields from the payload; all are caught by the generic handler. -/
inductive PyErr where
  | indexError : PyErr
  | keyError : PyErr
  | attributeError : PyErr
  | typeError : PyErr
deriving DecidableEq

/-- `d.get(key, default)` : on a dict returns the stored value or the
default; on any non-dict value `.get` raises `AttributeError`. -/
def pyGet (v : JValue) (key : String) (default : JValue) : Except PyErr JValue :=
  match v with
  | JValue.obj fields => Except.ok ((fields.lookup key).getD default)
  | _ => Except.error PyErr.attributeError

/-- `v[0]` : on a list returns the head or raises `IndexError`; on any
other value it raises (`KeyError` on dicts, `TypeError` otherwise; the
distinction is irrelevant, every raise reaches the same generic handler). -/
def pyIndex (v : JValue) (i : Nat) : Except PyErr JValue :=
  match v with
  | JValue.arr xs =>
      match xs.get? i with
      | some x => Except.ok x
      | none => Except.error PyErr.indexError
  | JValue.obj _ => Except.error PyErr.keyError
  | _ => Except.error PyErr.typeError

/-- Python truthiness (`if not messages:`): empty collections, empty
strings, zero, `False` and `None` are falsy. -/
def pyFalsy : JValue → Bool
  | JValue.null => true
  | JValue.str s => s = ""
  | JValue.num n => n = 0
  | JValue.bool b => !b
  | JValue.arr xs => xs.isEmpty
  | JValue.obj fs => fs.isEmpty

/-- The whitespace characters removed by `str.strip()` (ASCII part). -/
def pyIsSpace (c : Char) : Bool :=
  c = ' ' || c = '\t' || c = '\n' || c = '\r' || c = '\x0b' || c = '\x0c'

/-- `s.strip()` : remove leading and trailing whitespace. -/
def pyStrip (s : String) : String :=
  (((s.toList.dropWhile pyIsSpace).reverse.dropWhile pyIsSpace).reverse).asString

/-- `s.lower()` (ASCII case folding). -/
def pyLower (s : String) : String :=
  (s.toList.map Char.toLower).asString

/-- `message.lower().strip()`, the input normalization performed at the top
of `MenuSystem.handle_user_input`. -/
def normalize_input (message : String) : String :=
  pyStrip (pyLower message)

/-- The digit-only normalization `''.join(filter(str.isdigit, s))` used by
the authorization gate, modelled as the filtered character list. -/
def clean_digits (s : String) : List Char :=
  s.toList.filter Char.isDigit

/-- The dictionary returned by the menu navigation methods of `MenuSystem`:
keys `text`, `type`, and (on leaf selections only) `isSubmenu` and
`option`.  Absent keys are modelled by `false` / `none`, matching that
`menu_response.get(..)` of an absent key is falsy. -/
structure MenuResponse where
  text : String
  type : String
  isSubmenu : Bool
  option : Option String
deriving DecidableEq

/-- `MenuSystem.get_main_menu`. -/
def get_main_menu : MenuResponse :=
  { text := "🏠 *Welcome to Study Cafe Bot!*\n\nPlease select an option:\n\n1️⃣ Academic Resources\n2️⃣ Study Sessions\n3️⃣ Support & Help\n\nReply with a number (1-3) to continue."
    type := "main", isSubmenu := false, option := none }

/-- `MenuSystem.get_menu_1`. -/
def get_menu_1 : MenuResponse :=
  { text := "📚 *Academic Resources*\n\nChoose a submenu:\n\n1.1 Course Materials\n1.2 Practice Tests\n1.3 Study Guides\n\nReply with the option number or type *back* to return to main menu."
    type := "menu1", isSubmenu := false, option := none }

/-- `MenuSystem.get_menu_2`. -/
def get_menu_2 : MenuResponse :=
  { text := "🎯 *Study Sessions*\n\nChoose a submenu:\n\n2.1 Schedule Session\n2.2 Join Live Session\n2.3 View Recordings\n\nReply with the option number or type *back* to return to main menu."
    type := "menu2", isSubmenu := false, option := none }

/-- `MenuSystem.get_menu_3`. -/
def get_menu_3 : MenuResponse :=
  { text := "💬 *Support & Help*\n\nChoose a submenu:\n\n3.1 Contact Admin\n3.2 FAQ\n3.3 Technical Support\n\nReply with the option number or type *back* to return to main menu."
    type := "menu3", isSubmenu := false, option := none }

/-- A leaf response: state unchanged (`type` is the current section),
`isSubmenu` set, `option` the dotted form. -/
def leaf_response (text : String) (menu : String) (opt : String) : MenuResponse :=
  { text := text, type := menu, isSubmenu := true, option := some opt }

/-- `self.user_sessions[user_id] = v` on the association-list model of the
session dictionary. -/
def setSession (sessions : List (String × String)) (u : String) (v : String) :
    List (String × String) :=
  match sessions with
  | [] => [(u, v)]
  | (k, w) :: rest => if k = u then (k, v) :: rest else (k, w) :: setSession rest u v

/-- `MenuSystem.handle_user_input(user_id, message)`: normalizes the input,
reads the current menu from `user_sessions` (default `main`), and walks the
same decision chain as the source; returns the updated session dictionary
together with the response dictionary. -/
def handle_user_input (sessions : List (String × String)) (user_id : String)
    (message : String) : List (String × String) × MenuResponse :=
  let input_text := normalize_input message
  let current_menu := (sessions.lookup user_id).getD "main"
  if input_text = "back" ∨ input_text = "menu" ∨ input_text = "main" then
    (setSession sessions user_id "main", get_main_menu)
  else if current_menu = "main" then
    if input_text = "1" then (setSession sessions user_id "menu1", get_menu_1)
    else if input_text = "2" then (setSession sessions user_id "menu2", get_menu_2)
    else if input_text = "3" then (setSession sessions user_id "menu3", get_menu_3)
    else (sessions, get_main_menu)
  else if current_menu = "menu1" then
    if input_text = "1.1" ∨ input_text = "11" then
      (sessions, leaf_response "📖 *Course Materials*\n\nFetching your files..." "menu1" "1.1")
    else if input_text = "1.2" ∨ input_text = "12" then
      (sessions, leaf_response "✏️ *Practice Tests*\n\nFetching your files..." "menu1" "1.2")
    else if input_text = "1.3" ∨ input_text = "13" then
      (sessions, leaf_response "📝 *Study Guides*\n\nFetching your files..." "menu1" "1.3")
    else (sessions, get_menu_1)
  else if current_menu = "menu2" then
    if input_text = "2.1" ∨ input_text = "21" then
      (sessions, leaf_response "📅 *Schedule Session*\n\nFetching your files..." "menu2" "2.1")
    else if input_text = "2.2" ∨ input_text = "22" then
      (sessions, leaf_response "🔴 *Join Live Session*\n\nFetching your files..." "menu2" "2.2")
    else if input_text = "2.3" ∨ input_text = "23" then
      (sessions, leaf_response "📹 *View Recordings*\n\nFetching your files..." "menu2" "2.3")
    else (sessions, get_menu_2)
  else if current_menu = "menu3" then
    if input_text = "3.1" ∨ input_text = "31" then
      (sessions, leaf_response "👤 *Contact Admin*\n\nFetching your files..." "menu3" "3.1")
    else if input_text = "3.2" ∨ input_text = "32" then
      (sessions, leaf_response "❓ *FAQ*\n\nFetching your files..." "menu3" "3.2")
    else if input_text = "3.3" ∨ input_text = "33" then
      (sessions, leaf_response "🔧 *Technical Support*\n\nFetching your files..." "menu3" "3.3")
    else (sessions, get_menu_3)
  else
    (sessions, get_main_menu)

/-- The four menu states of the source (the values of `MenuSystem.MENUS`). -/
def known_menus : List String := ["main", "menu1", "menu2", "menu3"]

/-- The menu returned for a known state (the `get_menu_X` method owning it). -/
def menu_for (state : String) : MenuResponse :=
  if state = "menu1" then get_menu_1
  else if state = "menu2" then get_menu_2
  else if state = "menu3" then get_menu_3
  else get_main_menu

/-- The normalized inputs recognized at each state: the universal reset
tokens, plus the navigation digits at the root or the six leaf spellings
of a section. -/
def recognized_inputs (state : String) : List String :=
  if state = "main" then ["back", "menu", "main", "1", "2", "3"]
  else if state = "menu1" then
    ["back", "menu", "main", "1.1", "11", "1.2", "12", "1.3", "13"]
  else if state = "menu2" then
    ["back", "menu", "main", "2.1", "21", "2.2", "22", "2.3", "23"]
  else if state = "menu3" then
    ["back", "menu", "main", "3.1", "31", "3.2", "32", "3.3", "33"]
  else ["back", "menu", "main"]

/-- The nine leaf options: section state, dotted spelling, undotted
spelling. -/
def leaf_tokens : List (String × String × String) :=
  [("menu1", "1.1", "11"), ("menu1", "1.2", "12"), ("menu1", "1.3", "13"),
   ("menu2", "2.1", "21"), ("menu2", "2.2", "22"), ("menu2", "2.3", "23"),
   ("menu3", "3.1", "31"), ("menu3", "3.2", "32"), ("menu3", "3.3", "33")]

/-- Failure modes of the Google Sheets lookup, the two `except` arms of
`GoogleSheetsService.is_user_authorized`. -/
inductive LookupErr where
  | httpError : LookupErr
  | otherError : LookupErr
deriving DecidableEq

/-- The cleaning loop over the sheet rows: keep the first cell of each
non-empty row when it is non-empty and, once stripped, contains at least
one digit.  Cells are modelled as strings (the `str(row[0])` conversion is
the identity on them). -/
def extract_authorized (values : List (List String)) : List String :=
  values.filterMap fun row =>
    match row with
    | [] => none
    | cell :: _ =>
        if cell = "" then none
        else
          let num := pyStrip cell
          if num.toList.any Char.isDigit then some num else none

/-- One iteration of the matching loop of `is_user_authorized`: skip
entries whose digit string is empty or shorter than 10, otherwise match on
equality or either-direction `endswith` of the digit strings. -/
def matches_token (clean_number : List Char) (auth_num : String) : Bool :=
  let clean_auth := clean_digits auth_num
  if clean_auth.isEmpty || clean_auth.length < 10 then false
  else clean_auth == clean_number
    || clean_number.isSuffixOf clean_auth
    || clean_auth.isSuffixOf clean_number

/-- `GoogleSheetsService.is_user_authorized(phone_number)`.  The collaborator
state is passed in: `initialized` is the `self.initialized and self.service`
guard, `rows` is the outcome of the `spreadsheets().values().get` call
(rows of cells, or the exception it raised, which the two `except` arms
turn into `False`). -/
def is_user_authorized (initialized : Bool)
    (rows : Except LookupErr (List (List String))) (phone_number : String) : Bool :=
  if !initialized then false
  else
    match rows with
    | Except.error _ => false
    | Except.ok values =>
        let authorized_numbers := extract_authorized values
        let clean_number := clean_digits phone_number
        authorized_numbers.any (matches_token clean_number)

/-- `check_authorization(phone_number)`: bypass when `TESTING_MODE` is set,
otherwise delegate to the Sheets gate (whose own handlers already return
`False` on every exception, so the outer `except` arm is equivalent). -/
def check_authorization (testing_mode : Bool) (initialized : Bool)
    (rows : Except LookupErr (List (List String))) (phone_number : String) : Bool :=
  if testing_mode then true
  else is_user_authorized initialized rows phone_number

example : is_user_authorized true (.ok [["5550001234"]]) "+1 555-000-1234" = true := by decide

example : is_user_authorized true (.ok [["555000123"]]) "555000123" = false := by decide

example : is_user_authorized true (.ok [["5550001234"]]) "no digits here" = true := by decide

/-- A Google Drive file as the dispatcher consumes it: display name and link. -/
structure DriveFile where
  name : String
  link : String
deriving DecidableEq

/-- Failure modes of the Drive lookup, the two `except` arms of
`GoogleDriveService.get_user_folder_files`. -/
inductive DriveErr where
  | httpError : DriveErr
  | otherError : DriveErr
deriving DecidableEq

/-- `GoogleDriveService.get_user_folder_files`: not initialized, a raised
lookup error, and a missing folder all yield the empty list (the source
returns `[]` in each of those arms); otherwise the files found. -/
def get_user_folder_files (drive_ok : Bool)
    (result : Except DriveErr (List DriveFile)) : List DriveFile :=
  if !drive_ok then []
  else
    match result with
    | Except.error _ => []
    | Except.ok files => files

/-- One numbered line of the file list message: the f-string writing the
1-based index, a dot, the file name, a newline, the link and a blank line. -/
def file_entry (idx : Nat) (f : DriveFile) : String :=
  toString idx ++ ". " ++ f.name ++ "\n" ++ f.link ++ "\n\n"

/-- The file list message built by the dispatcher loop
`for idx, file in enumerate(files, 1)` with the fixed header and footer. -/
def file_message (files : List DriveFile) : String :=
  ((List.enumFrom 1 files).foldl (fun acc p => acc ++ file_entry p.1 p.2)
      "📚 *Here are your files:*\n\n")
    ++ "Type *back* to return to the menu."

/-- The fixed rejection text sent to unauthorized senders. -/
def unauthorized_text : String :=
  "🚫 *Unauthorized Access*\n\nSorry, your number is not registered in our system. Please contact the administrator to get access."

/-- The fixed fallback text sent when no files are found. -/
def no_files_text : String :=
  "❌ No files found in your folder.\n\nPlease contact admin or type *back* to return to menu."

/-- The fields extracted from the first message of a delivery: the from
field, the id field, and the message body (the text field looked up with an
empty-dict default, then its body field with an empty-string default).  The
body is kept as a raw `JValue` because the source only requires it to be a
string later, inside `handle_user_input` (`.lower()` raises on anything
else). -/
structure Incoming where
  from_number : String
  message_id : String
  message_text : JValue

/-- The payload-destructuring prefix of `webhook_receive`: the chain of
`.get(...)` and `[0]` steps, the `if not messages` early return (`none`),
and the field extraction for the first message.  Any raised exception is
propagated to the generic handler.  Sender and message ids must be strings
(see the modelling conventions above). -/
def extract_message (data : JValue) : Except PyErr (Option Incoming) := do
  let entries ← pyGet data "entry" (JValue.arr [JValue.obj []])
  let entry ← pyIndex entries 0
  let changesList ← pyGet entry "changes" (JValue.arr [JValue.obj []])
  let changes ← pyIndex changesList 0
  let value ← pyGet changes "value" (JValue.obj [])
  let messages ← pyGet value "messages" (JValue.arr [])
  if pyFalsy messages then
    pure none
  else do
    let message ← pyIndex messages 0
    let frm ← pyGet message "from" JValue.null
    let mid ← pyGet message "id" JValue.null
    let textv ← pyGet message "text" (JValue.obj [])
    let body ← pyGet textv "body" (JValue.str "")
    match frm, mid with
    | JValue.str f, JValue.str m => pure (some ⟨f, m, body⟩)
    | _, _ => Except.error PyErr.typeError

/-- The outbound calls a delivery performs: read receipts
(`mark_as_read`) and text sends (`send_message`), in order.  Both calls
swallow their own transport failures, so recording the attempts fully
describes the interaction. -/
structure Effects where
  marked_read : List String
  sent : List (String × String)
deriving DecidableEq

/-- No outbound calls. -/
def Effects.empty : Effects := ⟨[], []⟩

/-- The collaborator state a delivery runs against: the bypass flag, the
Sheets gate state, and the Drive lookup state. -/
structure Env where
  testing_mode : Bool
  sheets_ok : Bool
  sheets_rows : Except LookupErr (List (List String))
  drive_ok : Bool
  drive_result : Except DriveErr (List DriveFile)

/-- The body of `webhook_receive` after a message has been extracted:
mark read, authorize (rejecting with the fixed text on denial), run the
menu machine, then dispatch the file list on a leaf selection or send the
menu text.  Returns the Flask response pair, the updated session
dictionary, and the outbound calls. -/
def process_message (env : Env) (sessions : List (String × String)) (msg : Incoming) :
    (String × Nat) × List (String × String) × Effects :=
  let is_authorized := check_authorization env.testing_mode env.sheets_ok
      env.sheets_rows msg.from_number
  if !is_authorized then
    (("OK", 200), sessions, ⟨[msg.message_id], [(msg.from_number, unauthorized_text)]⟩)
  else
    match msg.message_text with
    | JValue.str body =>
        let hr := handle_user_input sessions msg.from_number body
        if hr.2.isSubmenu then
          let files := get_user_folder_files env.drive_ok env.drive_result
          if files.isEmpty then
            (("OK", 200), hr.1, ⟨[msg.message_id], [(msg.from_number, no_files_text)]⟩)
          else
            (("OK", 200), hr.1, ⟨[msg.message_id], [(msg.from_number, file_message files)]⟩)
        else
          (("OK", 200), hr.1, ⟨[msg.message_id], [(msg.from_number, hr.2.text)]⟩)
    | _ => (("Internal Server Error", 500), sessions, ⟨[msg.message_id], []⟩)

/-- `webhook_receive` (`POST /webhook`): extract the message; with no
message respond `OK` and do nothing; otherwise process it.  A raised
exception reaches the generic `except` handler, which answers
`(Internal Server Error, 500)`.  The non-string-body raise happens after
the read receipt, which `process_message` accounts for. -/
def webhook_receive (env : Env) (sessions : List (String × String)) (data : JValue) :
    (String × Nat) × List (String × String) × Effects :=
  match extract_message data with
  | Except.error _ => (("Internal Server Error", 500), sessions, Effects.empty)
  | Except.ok none => (("OK", 200), sessions, Effects.empty)
  | Except.ok (some msg) => process_message env sessions msg

example : normalize_input "  BaCk " = "back" := by decide

example : handle_user_input [] "u" "1" = ([("u", "menu1")], get_menu_1) := by decide

example : (handle_user_input [("u", "menu1")] "u" "12").2.option = some "1.2" := by decide

example : (extract_message (JValue.obj [])).isOk = true := rfl

example :
    extract_message (JValue.obj [("entry", JValue.arr [])])
      = Except.error PyErr.indexError := rfl

/-! ### Helper lemmas about the session dictionary -/

theorem lookup_setSession_self (sessions : List (String × String)) (u v : String) :
    (setSession sessions u v).lookup u = some v := by
  induction sessions with
  | nil => simp [setSession, List.lookup]
  | cons p rest ih =>
      obtain ⟨k, w⟩ := p
      by_cases hk : k = u
      · simp [setSession, hk, List.lookup]
      · simp only [setSession, if_neg hk, List.lookup]
        have : (u == k) = false := by simp [Ne.symm hk]
        simp [this, ih]

theorem setSession_idem (sessions : List (String × String)) (u v : String) :
    setSession (setSession sessions u v) u v = setSession sessions u v := by
  induction sessions with
  | nil => simp [setSession]
  | cons p rest ih =>
      obtain ⟨k, w⟩ := p
      by_cases hk : k = u
      · simp [setSession, hk]
      · simp [setSession, hk, ih]

/-! ### Helper lemmas about the digit normalization -/

theorem filter_dropWhile_of_disj {p q : Char → Bool} (l : List Char)
    (hdisj : ∀ a, q a = true → p a = false) :
    (l.dropWhile q).filter p = l.filter p := by
  induction l with
  | nil => rfl
  | cons a t ih =>
      by_cases hq : q a = true
      · rw [List.dropWhile_cons_of_pos hq, ih, List.filter_cons]
        simp [hdisj a hq]
      · rw [List.dropWhile_cons_of_neg (by simpa using hq)]

theorem space_not_digit : ∀ a, pyIsSpace a = true → Char.isDigit a = false := by
  intro a ha
  simp only [pyIsSpace, Bool.or_eq_true, decide_eq_true_eq] at ha
  rcases ha with ((((h | h) | h) | h) | h) | h <;> subst h <;> rfl

theorem clean_digits_pyStrip (s : String) :
    clean_digits (pyStrip s) = clean_digits s := by
  show ((((s.toList.dropWhile pyIsSpace).reverse.dropWhile pyIsSpace).reverse).filter
      Char.isDigit) = s.toList.filter Char.isDigit
  rw [List.filter_reverse, filter_dropWhile_of_disj _ space_not_digit,
    List.filter_reverse, List.reverse_reverse,
    filter_dropWhile_of_disj _ space_not_digit]

/-- A registry cell with at least ten digits survives the cleaning loop of
`is_user_authorized` once stripped. -/
theorem mem_extract_authorized_of_digits {cell : String} {rest : List String}
    {values : List (List String)} (hmem : (cell :: rest) ∈ values)
    (hlen : 10 ≤ (clean_digits cell).length) :
    pyStrip cell ∈ extract_authorized values := by
  have hne : cell ≠ "" := by
    intro h
    subst h
    simp [clean_digits] at hlen
  have hdig : (pyStrip cell).toList.any Char.isDigit = true := by
    have hlen' : 0 < (clean_digits (pyStrip cell)).length := by
      rw [clean_digits_pyStrip]
      omega
    obtain ⟨c, hc⟩ := List.exists_mem_of_ne_nil _ (List.length_pos.mp hlen')
    have hc' := List.mem_filter.mp hc
    exact List.any_eq_true.mpr ⟨c, hc'.1, hc'.2⟩
  unfold extract_authorized
  refine List.mem_filterMap.mpr ⟨cell :: rest, hmem, ?_⟩
  have h : (if cell = "" then (none : Option String)
      else if (pyStrip cell).toList.any Char.isDigit = true
        then some (pyStrip cell) else none) = some (pyStrip cell) := by
    rw [if_neg hne, if_pos hdig]
  exact h

/-- Characterization of the authorization gate on a successful lookup:
the candidate is accepted exactly when some row of the sheet has a first
cell with at least ten digits whose digit string equals the candidate
digit string or is a suffix of it or has it as a suffix. -/
theorem is_user_authorized_ok_iff (values : List (List String)) (phone : String) :
    is_user_authorized true (Except.ok values) phone = true ↔
      ∃ row ∈ values, ∃ cell rest, row = cell :: rest ∧
        10 ≤ (clean_digits cell).length ∧
        (clean_digits cell = clean_digits phone ∨
          clean_digits phone <:+ clean_digits cell ∨
          clean_digits cell <:+ clean_digits phone) := by
  unfold is_user_authorized
  simp only [Bool.not_true, Bool.false_eq_true, if_false, List.any_eq_true]
  constructor
  · rintro ⟨x, hx, hmatch⟩
    obtain ⟨row, hrow, hsome⟩ := List.mem_filterMap.mp hx
    rcases row with _ | ⟨cell, rest⟩
    · exact Option.noConfusion hsome
    · have hsome' : (if cell = "" then none
          else if (pyStrip cell).toList.any Char.isDigit = true
            then some (pyStrip cell) else none) = some x := hsome
      by_cases h1 : cell = ""
      · rw [if_pos h1] at hsome'
        exact Option.noConfusion hsome'
      · rw [if_neg h1] at hsome'
        by_cases h2 : (pyStrip cell).toList.any Char.isDigit = true
        · rw [if_pos h2] at hsome'
          have hx' : x = pyStrip cell := (Option.some.inj hsome').symm
          subst hx'
          simp only [matches_token] at hmatch
          rw [clean_digits_pyStrip] at hmatch
          by_cases hskip : ((clean_digits cell).isEmpty
              || decide ((clean_digits cell).length < 10)) = true
          · rw [if_pos hskip] at hmatch
            simp at hmatch
          · rw [if_neg hskip] at hmatch
            have hlen : 10 ≤ (clean_digits cell).length := by
              simp only [Bool.or_eq_true, decide_eq_true_eq, not_or] at hskip
              omega
            refine ⟨cell :: rest, hrow, cell, rest, rfl, hlen, ?_⟩
            simp only [Bool.or_eq_true, beq_iff_eq, List.isSuffixOf_iff_suffix] at hmatch
            tauto
        · rw [if_neg h2] at hsome'
          exact Option.noConfusion hsome'
  · rintro ⟨row, hrow, cell, rest, rfl, hlen, hdisj⟩
    refine ⟨pyStrip cell, mem_extract_authorized_of_digits hrow hlen, ?_⟩
    have h1 : (clean_digits cell).isEmpty = false := by
      cases h : clean_digits cell with
      | nil => rw [h] at hlen; simp at hlen
      | cons a l => rfl
    have hskip : ((clean_digits cell).isEmpty || decide ((clean_digits cell).length < 10))
        = false := by
      simp [h1, Nat.not_lt, hlen]
    simp only [matches_token]
    rw [clean_digits_pyStrip, hskip]
    simp only [Bool.false_eq_true, if_false, Bool.or_eq_true, beq_iff_eq,
      List.isSuffixOf_iff_suffix]
    tauto

/-! ### Helper lemmas about string concatenation and the file list -/

theorem string_foldl_append (l : List String) :
    ∀ acc : String, l.foldl (fun a b => a ++ b) acc
      = acc ++ l.foldl (fun a b => a ++ b) "" := by
  induction l with
  | nil => intro acc; simp
  | cons b t ih =>
      intro acc
      simp only [List.foldl_cons]
      rw [ih (acc ++ b), ih ("" ++ b), String.empty_append, String.append_assoc]

theorem string_join_cons (a : String) (l : List String) :
    String.join (a :: l) = a ++ String.join l := by
  show (a :: l).foldl (fun a b => a ++ b) "" = a ++ l.foldl (fun a b => a ++ b) ""
  simp only [List.foldl_cons]
  rw [string_foldl_append, String.empty_append]

theorem foldl_file_entries (l : List (Nat × DriveFile)) :
    ∀ acc : String, l.foldl (fun acc p => acc ++ file_entry p.1 p.2) acc
      = acc ++ String.join (l.map fun p => file_entry p.1 p.2) := by
  induction l with
  | nil => intro acc; simp [String.join]
  | cons p t ih =>
      intro acc
      simp only [List.foldl_cons, List.map_cons]
      rw [ih, string_join_cons, String.append_assoc]

/-- The file list message decomposes into the fixed header, the joined
numbered lines taken in input order, and the fixed footer. -/
theorem file_message_eq (files : List DriveFile) :
    file_message files
      = "📚 *Here are your files:*\n\n"
        ++ String.join ((List.enumFrom 1 files).map fun p => file_entry p.1 p.2)
        ++ "Type *back* to return to the menu." := by
  unfold file_message
  rw [foldl_file_entries]

/-- A leaf selection leaves the session dictionary untouched and reports
the current menu as its type. -/
theorem handle_isSubmenu_frame (sessions : List (String × String)) (u m : String)
    (h : (handle_user_input sessions u m).2.isSubmenu = true) :
    (handle_user_input sessions u m).1 = sessions ∧
    (handle_user_input sessions u m).2.type = ((sessions.lookup u).getD "main") := by
  simp only [handle_user_input] at h ⊢
  split_ifs at h ⊢ <;>
    simp_all [get_main_menu, get_menu_1, get_menu_2, get_menu_3, leaf_response]

/-! ### Claim theorems -/

/-- Claim C2: for every session dictionary, user, and raw input whose
normalization (lowercase, trimmed) is back, menu or main, the transition
writes the root state into the session and returns the root menu; this
holds from every state, including the root itself, and applying the reset
twice equals applying it once. -/
theorem claim2_reset_to_root (sessions : List (String × String)) (u raw : String)
    (h : normalize_input raw = "back" ∨ normalize_input raw = "menu" ∨
      normalize_input raw = "main") :
    handle_user_input sessions u raw = (setSession sessions u "main", get_main_menu) ∧
    (((handle_user_input sessions u raw).1.lookup u).getD "main") = "main" ∧
    handle_user_input (handle_user_input sessions u raw).1 u raw
      = ((handle_user_input sessions u raw).1, get_main_menu) := by
  have h1 : handle_user_input sessions u raw
      = (setSession sessions u "main", get_main_menu) := by
    simp only [handle_user_input]
    rw [if_pos h]
  refine ⟨h1, ?_, ?_⟩
  · rw [h1, lookup_setSession_self]
    rfl
  · rw [h1]
    simp only [handle_user_input]
    rw [if_pos h, setSession_idem]

/-- Witness for claim C2: a user sitting in the second section sends a
raw reset token with stray case and spacing. -/
theorem claim2_witness :
    handle_user_input [("u", "menu2")] "u" " Back "
      = (setSession [("u", "menu2")] "u" "main", get_main_menu) ∧
    (((handle_user_input [("u", "menu2")] "u" " Back ").1.lookup "u").getD "main")
      = "main" ∧
    handle_user_input (handle_user_input [("u", "menu2")] "u" " Back ").1 "u" " Back "
      = ((handle_user_input [("u", "menu2")] "u" " Back ").1, get_main_menu) :=
  claim2_reset_to_root [("u", "menu2")] "u" " Back " (Or.inl (by decide))

/-- Claim C3: at every known menu state, an input recognized neither as a
reset token nor as a navigation or leaf token of that state leaves the
session dictionary untouched and returns that state's own menu (a
self-loop). -/
theorem claim3_self_loop (sessions : List (String × String)) (u raw : String)
    (hknown : ((sessions.lookup u).getD "main") ∈ known_menus)
    (hunrec : normalize_input raw ∉ recognized_inputs ((sessions.lookup u).getD "main")) :
    handle_user_input sessions u raw
      = (sessions, menu_for ((sessions.lookup u).getD "main")) := by
  simp only [known_menus, List.mem_cons, List.not_mem_nil, or_false] at hknown
  rcases hknown with h | h | h | h <;>
    rw [h] at hunrec ⊢ <;>
    simp [recognized_inputs] at hunrec <;>
    simp [handle_user_input, menu_for, h, hunrec]

/-- Witness for claim C3: an unrecognized input at the first section
re-returns that section's menu with the session untouched. -/
theorem claim3_witness :
    handle_user_input [("u", "menu1")] "u" "zzz"
      = ([("u", "menu1")], menu_for (([("u", "menu1")].lookup "u").getD "main")) :=
  claim3_self_loop [("u", "menu1")] "u" "zzz" (by decide) (by decide)

/-- Claim C4: at each section state, the dotted and the undotted spelling
of a leaf option are interchangeable: the transition returns the identical
leaf descriptor for both — same text, session untouched, the type equal to
the current state, the submenu flag set, and the option id equal to the
dotted form. -/
theorem claim4_dotted_undotted (sessions : List (String × String)) (u : String)
    (s dotted undotted : String)
    (hmem : (s, dotted, undotted) ∈ leaf_tokens)
    (hcur : (sessions.lookup u).getD "main" = s) :
    handle_user_input sessions u dotted = handle_user_input sessions u undotted ∧
    (handle_user_input sessions u dotted).1 = sessions ∧
    (handle_user_input sessions u dotted).2.isSubmenu = true ∧
    (handle_user_input sessions u dotted).2.option = some dotted ∧
    (handle_user_input sessions u dotted).2.type = s := by
  simp only [leaf_tokens, List.mem_cons, List.not_mem_nil, or_false,
    Prod.mk.injEq] at hmem
  rcases hmem with h | h | h | h | h | h | h | h | h <;>
    obtain ⟨rfl, rfl, rfl⟩ := h <;>
    simp +decide [handle_user_input, hcur, leaf_response]

/-- Witness for claim C4: in the second section, the inputs 2.2 and 22
produce the identical leaf descriptor. -/
theorem claim4_witness :
    handle_user_input [("u", "menu2")] "u" "2.2"
      = handle_user_input [("u", "menu2")] "u" "22" ∧
    (handle_user_input [("u", "menu2")] "u" "2.2").1 = [("u", "menu2")] ∧
    (handle_user_input [("u", "menu2")] "u" "2.2").2.isSubmenu = true ∧
    (handle_user_input [("u", "menu2")] "u" "2.2").2.option = some "2.2" ∧
    (handle_user_input [("u", "menu2")] "u" "2.2").2.type = "menu2" :=
  claim4_dotted_undotted [("u", "menu2")] "u" "menu2" "2.2" "22" (by decide) (by decide)

/-- Counterexample to claim C9 as stated: from the out-of-enumeration
state bogus, the input 1 does not behave as it would from the root.  From
the root it navigates to the first section and returns that section's
menu; from the unknown state it returns the root menu and leaves the
session (and hence the unknown state) unchanged. -/
theorem claim9_counterexample :
    (handle_user_input [("u", "bogus")] "u" "1").2 = get_main_menu ∧
    (handle_user_input [("u", "main")] "u" "1").2 = get_menu_1 ∧
    get_main_menu ≠ get_menu_1 ∧
    (handle_user_input [("u", "bogus")] "u" "1").1 = [("u", "bogus")] ∧
    (handle_user_input [("u", "main")] "u" "1").1 = [("u", "menu1")] :=
  ⟨rfl, rfl, by decide, rfl, rfl⟩

/-- Claim C9 (amended): for every session state outside the known
enumeration and every input that is not a reset token, the transition
returns the root menu descriptor and leaves the session dictionary — and
hence the unknown state — unchanged.  It does not replicate the root
state's navigation, and it does not reset the stored state. -/
theorem claim9_unknown_state (sessions : List (String × String)) (u raw : String)
    (hunk : ((sessions.lookup u).getD "main") ∉ known_menus)
    (hres : normalize_input raw ≠ "back" ∧ normalize_input raw ≠ "menu" ∧
      normalize_input raw ≠ "main") :
    handle_user_input sessions u raw = (sessions, get_main_menu) := by
  simp only [known_menus, List.mem_cons, List.not_mem_nil, or_false, not_or] at hunk
  obtain ⟨h0, h1, h2, h3⟩ := hunk
  obtain ⟨hb, hm, hma⟩ := hres
  simp [handle_user_input, hb, hm, hma, h0, h1, h2, h3]

/-- Witness for claim C9 at a concrete unknown state and input. -/
theorem claim9_witness :
    handle_user_input [("u", "limbo")] "u" "1" = ([("u", "limbo")], get_main_menu) :=
  claim9_unknown_state [("u", "limbo")] "u" "1" (by decide) (by decide)

/-- Claim C5: with the bypass flag off, authorization compares digit-only
normalizations.  First, the candidate +1 555-000-1234 matches the registry
entry 5550001234.  Second, a registry entry whose normalization has fewer
than ten digits is never matched by any candidate.  Third, a candidate is
authorized exactly when some registry row has a first cell with at least
ten digits whose digit string equals the candidate digit string or is a
suffix of it or has it as a suffix. -/
theorem claim5_digit_matching :
    check_authorization false true (Except.ok [["5550001234"]]) "+1 555-000-1234"
      = true ∧
    (∀ entry cand : String, (clean_digits entry).length < 10 →
      check_authorization false true (Except.ok [[entry]]) cand = false) ∧
    (∀ (values : List (List String)) (cand : String),
      check_authorization false true (Except.ok values) cand = true ↔
        ∃ row ∈ values, ∃ cell rest, row = cell :: rest ∧
          10 ≤ (clean_digits cell).length ∧
          (clean_digits cell = clean_digits cand ∨
            clean_digits cand <:+ clean_digits cell ∨
            clean_digits cell <:+ clean_digits cand)) := by
  have hdel : ∀ (r : Except LookupErr (List (List String))) (p : String),
      check_authorization false true r p = is_user_authorized true r p :=
    fun _ _ => rfl
  refine ⟨by decide, ?_, ?_⟩
  · intro entry cand hlen
    rw [hdel, Bool.eq_false_iff]
    intro htrue
    obtain ⟨row, hrow, cell, rest, heq, h10, -⟩ :=
      (is_user_authorized_ok_iff [[entry]] cand).mp htrue
    simp only [List.mem_singleton] at hrow
    subst hrow
    injection heq with hc hr
    subst hc
    omega
  · intro values cand
    rw [hdel]
    exact is_user_authorized_ok_iff values cand

/-- Witness for claim C5: a nine-digit registry entry does not even match
itself. -/
theorem claim5_witness :
    check_authorization false true (Except.ok [["555000123"]]) "555000123" = false :=
  claim5_digit_matching.2.1 "555000123" "555000123" (by decide)

/-- Claim C6: with the bypass flag off, every failure of the
authorization-list lookup — the collaborator not initialized, an HTTP
error, or any unexpected exception — makes the check return false,
identically to a candidate that is absent from the registry (the empty
registry rejects every candidate). -/
theorem claim6_fail_closed (initialized : Bool)
    (rows : Except LookupErr (List (List String))) (phone : String)
    (hfail : initialized = false ∨ ∃ e, rows = Except.error e) :
    check_authorization false initialized rows phone = false ∧
    check_authorization false initialized rows phone
      = check_authorization false true (Except.ok []) phone := by
  rcases hfail with h | ⟨e, h⟩
  · subst h
    exact ⟨rfl, rfl⟩
  · subst h
    cases initialized <;> exact ⟨rfl, rfl⟩

/-- Witness for claim C6: an uninitialized collaborator rejects even a
number that is present in the registry rows. -/
theorem claim6_witness :
    check_authorization false false (Except.ok [["5550001234"]]) "5550001234"
      = false ∧
    check_authorization false false (Except.ok [["5550001234"]]) "5550001234"
      = check_authorization false true (Except.ok []) "5550001234" :=
  claim6_fail_closed false (Except.ok [["5550001234"]]) "5550001234" (Or.inl rfl)

/-- Claim C10: with the bypass flag off and a registry containing at least
one token with ten or more digits, a candidate containing no digits at all
— whose digit-only normalization is empty — is authorized, because the
empty digit string is a suffix of every valid registry token. -/
theorem claim10_empty_digits_authorized (values : List (List String)) (cand : String)
    (hvalid : ∃ row ∈ values, ∃ cell rest, row = cell :: rest ∧
      10 ≤ (clean_digits cell).length)
    (hempty : clean_digits cand = []) :
    check_authorization false true (Except.ok values) cand = true := by
  obtain ⟨row, hrow, cell, rest, heq, h10⟩ := hvalid
  have hd : check_authorization false true (Except.ok values) cand
      = is_user_authorized true (Except.ok values) cand := rfl
  rw [hd, is_user_authorized_ok_iff]
  refine ⟨row, hrow, cell, rest, heq, h10, Or.inr (Or.inl ?_)⟩
  rw [hempty]
  exact List.nil_suffix

/-- Witness for claim C10: a digit-free candidate is accepted against a
ten-digit registry entry. -/
theorem claim10_witness :
    check_authorization false true (Except.ok [["5550001234"]]) "+-()" = true :=
  claim10_empty_digits_authorized [["5550001234"]] "+-()"
    ⟨["5550001234"], by decide, "5550001234", [], rfl, by decide⟩ (by decide)

/-- Claim C7: a leaf selection never changes the session state.  The
transition returns a descriptor whose type equals the current state and
leaves the session dictionary unchanged, and the delivery endpoint's
processing of such a message — in particular the dispatcher path — ends
with the session dictionary it started with. -/
theorem claim7_leaf_frame :
    (∀ (sessions : List (String × String)) (u m : String),
      (handle_user_input sessions u m).2.isSubmenu = true →
        (handle_user_input sessions u m).1 = sessions ∧
        (handle_user_input sessions u m).2.type = ((sessions.lookup u).getD "main")) ∧
    (∀ (env : Env) (sessions : List (String × String)) (msg : Incoming)
        (body : String),
      msg.message_text = JValue.str body →
      (handle_user_input sessions msg.from_number body).2.isSubmenu = true →
        (process_message env sessions msg).2.1 = sessions) := by
  refine ⟨fun sessions u m h => handle_isSubmenu_frame sessions u m h, ?_⟩
  intro env sessions msg body hb hsub
  have hframe := (handle_isSubmenu_frame sessions msg.from_number body hsub).1
  simp only [process_message, hb]
  split_ifs <;> simp_all

/-- Witness for claim C7: a leaf selection in the third section leaves the
stored session untouched, at the transition and through the endpoint. -/
theorem claim7_witness :
    (handle_user_input [("u", "menu3")] "u" "3.2").2.isSubmenu = true ∧
    (handle_user_input [("u", "menu3")] "u" "3.2").1 = [("u", "menu3")] ∧
    (handle_user_input [("u", "menu3")] "u" "3.2").2.type
      = (([("u", "menu3")].lookup "u").getD "main") ∧
    (process_message ⟨true, true, Except.ok [], true, Except.ok []⟩
        [("u", "menu3")] ⟨"u", "mid2", JValue.str "3.2"⟩).2.1 = [("u", "menu3")] := by
  have h1 := claim7_leaf_frame.1 [("u", "menu3")] "u" "3.2" (by decide)
  have h2 := claim7_leaf_frame.2 ⟨true, true, Except.ok [], true, Except.ok []⟩
    [("u", "menu3")] ⟨"u", "mid2", JValue.str "3.2"⟩ "3.2" rfl (by decide)
  exact ⟨by decide, h1.1, h1.2, h2⟩

/-- Claim C8: on the dispatcher path the sent message is exactly the
rendered file list when the lookup returned files, or the fixed no-files
fallback when it returned none; the rendered message is the fixed header,
the joined numbered lines in input order, and the fixed footer; there are
exactly as many lines as files, line i carrying the number i+1 and the
name and link of the i-th file; and every file-lookup failure produces the
empty list and therefore the fallback. -/
theorem claim8_dispatcher_rendering :
    (∀ (env : Env) (sessions : List (String × String)) (msg : Incoming)
        (body : String),
      msg.message_text = JValue.str body →
      check_authorization env.testing_mode env.sheets_ok env.sheets_rows
          msg.from_number = true →
      (handle_user_input sessions msg.from_number body).2.isSubmenu = true →
        (process_message env sessions msg).2.2.sent
          = [(msg.from_number,
              if (get_user_folder_files env.drive_ok env.drive_result).isEmpty
              then no_files_text
              else file_message (get_user_folder_files env.drive_ok env.drive_result))]) ∧
    (∀ files : List DriveFile,
      file_message files
        = "📚 *Here are your files:*\n\n"
          ++ String.join ((List.enumFrom 1 files).map fun p => file_entry p.1 p.2)
          ++ "Type *back* to return to the menu.") ∧
    (∀ files : List DriveFile,
      ((List.enumFrom 1 files).map fun p => file_entry p.1 p.2).length
        = files.length) ∧
    (∀ (files : List DriveFile) (i : Nat), i < files.length →
      ((List.enumFrom 1 files).map fun p => file_entry p.1 p.2).getD i ""
        = file_entry (1 + i) (files.getD i ⟨"", ""⟩)) ∧
    (∀ (g : Bool) (e : DriveErr), get_user_folder_files g (Except.error e) = []) ∧
    (∀ r : Except DriveErr (List DriveFile), get_user_folder_files false r = []) := by
  refine ⟨?_, fun files => file_message_eq files, ?_, ?_, ?_, fun r => rfl⟩
  · intro env sessions msg body hb hauth hsub
    simp only [process_message, hb, hauth]
    split_ifs <;> simp_all
  · intro files
    simp [List.enumFrom_length]
  · intro files i hi
    have hi' : i < ((List.enumFrom 1 files).map fun p => file_entry p.1 p.2).length := by
      simpa [List.enumFrom_length] using hi
    rw [List.getD_eq_getElem?_getD, List.getElem?_eq_getElem hi', Option.getD_some,
      List.getD_eq_getElem?_getD, List.getElem?_eq_getElem hi, Option.getD_some,
      List.getElem_map, List.getElem_enumFrom]
  · intro g e
    cases g <;> rfl

/-- Witness for claim C8: a single-file folder is rendered and sent on a
leaf selection in the first section. -/
theorem claim8_witness :
    (process_message
        ⟨true, true, Except.ok [], true, Except.ok [⟨"notes.pdf", "http://x"⟩]⟩
        [("u", "menu1")] ⟨"u", "mid", JValue.str "1.1"⟩).2.2.sent
      = [("u",
          if (get_user_folder_files true
              (Except.ok [⟨"notes.pdf", "http://x"⟩])).isEmpty
          then no_files_text
          else file_message (get_user_folder_files true
              (Except.ok [⟨"notes.pdf", "http://x"⟩])))] :=
  claim8_dispatcher_rendering.1
    ⟨true, true, Except.ok [], true, Except.ok [⟨"notes.pdf", "http://x"⟩]⟩
    [("u", "menu1")] ⟨"u", "mid", JValue.str "1.1"⟩ "1.1" rfl (by decide) (by decide)

/-- Counterexample to claim C1 as stated: the delivery payload whose entry
list is present but empty contains no message entries, yet the endpoint
raises IndexError at the very first subscript, which the generic handler
turns into the server-error response, not a success; while the equally
message-free payload without an entry key is acknowledged with success. -/
theorem claim1_counterexample :
    webhook_receive ⟨true, true, Except.ok [], true, Except.ok []⟩ []
        (JValue.obj [("entry", JValue.arr [])])
      = (("Internal Server Error", 500), [], Effects.empty) ∧
    webhook_receive ⟨true, true, Except.ok [], true, Except.ok []⟩ []
        (JValue.obj [])
      = (("OK", 200), [], Effects.empty) :=
  ⟨rfl, rfl⟩

/-- Claim C1 (amended): a delivery whose payload destructures without
raising and yields no messages — entry or changes keys absent, value or
messages absent, or the messages value empty or otherwise falsy — is
acknowledged with success, with no session change and no outbound call;
but a message-free payload on which the field extraction raises, such as
an entry key holding an empty list, is answered with the server-error
status by the generic exception handler, so the server-error status is
not reserved to faults other than payload shape. -/
theorem claim1_message_free_delivery (env : Env)
    (sessions : List (String × String)) (data : JValue)
    (h : extract_message data = Except.ok none) :
    webhook_receive env sessions data = (("OK", 200), sessions, Effects.empty) ∧
    ∀ sessions2 : List (String × String),
      webhook_receive env sessions2 (JValue.obj [("entry", JValue.arr [])])
        = (("Internal Server Error", 500), sessions2, Effects.empty) := by
  constructor
  · unfold webhook_receive
    rw [h]
  · intro s2
    rfl

/-- Witness for claim C1: a payload with no entry key parses to no
messages and is acknowledged with success, no effects, session unchanged. -/
theorem claim1_witness :
    webhook_receive ⟨false, false, Except.error LookupErr.otherError, false,
        Except.error DriveErr.otherError⟩ [("u", "menu1")] (JValue.obj [])
      = (("OK", 200), [("u", "menu1")], Effects.empty) :=
  (claim1_message_free_delivery
    ⟨false, false, Except.error LookupErr.otherError, false,
      Except.error DriveErr.otherError⟩ [("u", "menu1")] (JValue.obj []) rfl).1
